import Mathlib

/-!
Shallow embedding of `src/BLEServer.cpp` (ESP32 BLE Arduino, server role).

The single source file implements the server facade (`createService`,
`connect`, `getRssi`, `updateConnParams`, accessors), the GATT/GAP event
dispatchers (`handleGATTServerEvent`, `handleGAPEvent`) and the
multi-connect peer table (`addPeerDevice`, `removePeerDevice`,
`updatePeerMTU`, `getPeerMTU`, `getPeerDevices`).

Modelling conventions:
- `std::map<uint16_t, conn_status_t>` becomes an association list with
  first-match lookup; `std::map::insert` keeps the existing entry when the
  key is already present, `erase` removes it, matching the C++ semantics.
- The FreeRTOS counting-semaphore rendezvous (`take` / `give(value)` /
  `wait`) becomes an explicit slot record: `take` marks the slot taken,
  `give v` stores `v` (a `uint32_t`, hence reduced mod 2^32) and releases,
  and `wait` blocks until released and reads back the stored value
  (in the FreeRTOS wrapper `wait` re-takes and immediately re-gives, so
  afterwards the slot is released and the value is retained).
- Blocking facade calls are embedded as total functions parametrised by a
  controller oracle: the synchronous return code of the outbound ESP-IDF
  call and the payload of the completion event that the controller later
  delivers.  The completion is routed through the real dispatcher
  (`handleGATTServerEvent` / `handleGAPEvent`) so that the value the
  facade reads out of the rendezvous is exactly the value the dispatcher
  stored.
- Calls into external collaborators that do not touch server state
  (logging at debug level, `BLEDevice::startAdvertising`, forwarding the
  event to every service) are recorded in observation fields
  (`warningLog`, `errorLog`, `callbackLog`, `advertisingRestarts`,
  `openRequests`, `rssiRequests`) or dropped when they have no observable
  effect on the server object.
- Machine integers: `m_connectedCount` is a `uint32_t` and is the only
  integer the code does wrapping arithmetic on; it is kept as a `Nat`
  reduced mod 2^32.  The RSSI value delivered by the controller is an
  `int8_t` that the dispatcher casts to `uint32_t` and the facade casts
  back to `int`; both casts are modelled explicitly.
-/

/-- ESP-IDF success return code (`ESP_OK = 0`). -/
def ESP_OK : Nat := 0

/-- GATT protocol success status (`ESP_GATT_OK = 0`). -/
def ESP_GATT_OK : Nat := 0

/-- Sentinel interface id used by the constructor (`ESP_GATT_IF_NONE = 0xff`). -/
def ESP_GATT_IF_NONE : Nat := 0xff

/-- Reinterpret a `uint32_t` bit pattern as a signed 32-bit `int`, as the
assignment `int rssiValue = m_semaphoreRssiCmplEvt.wait(...)` does. -/
def toInt32 (n : Nat) : Int :=
  if n % 2 ^ 32 < 2 ^ 31 then ((n % 2 ^ 32 : Nat) : Int)
  else ((n % 2 ^ 32 : Nat) : Int) - 2 ^ 32

/-- Cast a signed integer (here an `int8_t` RSSI) to `uint32_t`, as in
`m_semaphoreRssiCmplEvt.give((uint32_t) param->read_rssi_cmpl.rssi)`. -/
def toUInt32bits (v : Int) : Nat := (v % (2 ^ 32 : Int)).toNat

/-- Single-slot rendezvous state of one `FreeRTOS::Semaphore`. -/
structure Semaphore where
  taken : Bool
  value : Nat
deriving Repr, DecidableEq

/-- `take`: arm the rendezvous (acquire the semaphore). -/
def Semaphore.take (s : Semaphore) : Semaphore :=
  { s with taken := true }

/-- `give(value)`: store the `uint32_t` result and release. -/
def Semaphore.give (v : Nat) : Semaphore :=
  { taken := false, value := v % 2 ^ 32 }

/-- `give()` with no value: release without touching the stored value. -/
def Semaphore.giveUnit (s : Semaphore) : Semaphore :=
  { s with taken := false }

/-- A freshly constructed semaphore: released, value 0. -/
def Semaphore.init : Semaphore :=
  { taken := false, value := 0 }

/-- `conn_status_t`: one entry of the multi-connect peer table.
`peer_device` holds the `(void*) this` pointer; a single server is
modelled, so the pointer is an opaque tag. -/
structure conn_status_t where
  peer_device : Nat
  connected : Bool
  mtu : Nat
deriving Repr, DecidableEq

/-- First-match lookup in an association list, as `std::map::find`
(keys are unique in a real `std::map`, so first match is the match). -/
def MapFind (m : List (Nat × conn_status_t)) (k : Nat) : Option conn_status_t :=
  match m with
  | [] => none
  | p :: rest => if p.1 = k then some p.2 else MapFind rest k

/-- `std::map::erase(key)`: remove the entry with that key, no-op when
the key is absent (keys are unique in a `std::map`, so removing every
pair with that key coincides with removing the one entry). -/
def MapErase (m : List (Nat × conn_status_t)) (k : Nat) : List (Nat × conn_status_t) :=
  match m with
  | [] => []
  | p :: rest => if p.1 = k then MapErase rest k else p :: MapErase rest k

/-- `std::map::insert(pair(key, value))`: inserts only when the key is not
already present (the C++ call returns `false` and changes nothing on a
present key). -/
def MapInsertNew (m : List (Nat × conn_status_t)) (k : Nat) (v : conn_status_t) :
    List (Nat × conn_status_t) :=
  if (MapFind m k).isSome then m else (k, v) :: m

/-- Update the value stored at key `k` in place, leaving every other
entry untouched. -/
def MapAdjust (m : List (Nat × conn_status_t)) (k : Nat)
    (f : conn_status_t → conn_status_t) : List (Nat × conn_status_t) :=
  match m with
  | [] => []
  | p :: rest =>
    if p.1 = k then (p.1, f p.2) :: MapAdjust rest k f
    else p :: MapAdjust rest k f

/-- A `BLEService` object as far as the server manipulates it: the UUID
and instance id it was created with, and a fresh object identity
(`objId`) standing for the `new BLEService(...)` allocation. -/
structure BLEService where
  uuid : Nat
  numHandles : Nat
  m_instId : Nat
  objId : Nat
deriving Repr, DecidableEq

/-- Modelled from the spec: the Service Registry (`BLEServiceMap`, not part
of this source file).  Per spec 4.2 it supports `insert(logicalId,
instanceDiscriminator, service)`, `lookupByLogicalId`, `bindHandle` and
`lookupByHandle`; duplicate logical ids are allowed to coexist.  Entries
are kept most-recent-first; handle bindings may point at no service
because the dispatcher passes the raw (possibly null) lookup result. -/
structure ServiceMap where
  services : List BLEService
  handleMap : List (Nat × Option BLEService)
deriving Repr, DecidableEq

/-- Modelled from the spec: `lookupByLogicalId` by UUID alone, the one-argument
`getByUUID` used by `createService` for the duplicate check. -/
def ServiceMap.getByUUID (m : ServiceMap) (uuid : Nat) : Option BLEService :=
  m.services.find? (fun sv => sv.uuid == uuid)

/-- Modelled from the spec: `lookupByLogicalId(logicalId, instanceDiscriminator)`,
the two-argument `getByUUID` used by the `ESP_GATTS_CREATE_EVT` handler. -/
def ServiceMap.getByUUIDInst (m : ServiceMap) (uuid : Nat) (inst : Nat) : Option BLEService :=
  m.services.find? (fun sv => sv.uuid == uuid && sv.m_instId == inst)

/-- Modelled from the spec: `insert` (`setByUUID`); registers the service,
proceeding even when the UUID is already present. -/
def ServiceMap.setByUUID (m : ServiceMap) (sv : BLEService) : ServiceMap :=
  { m with services := sv :: m.services }

/-- Modelled from the spec: `bindHandle` (`setByHandle`); the dispatcher
passes the raw lookup result, so the bound value may be no service. -/
def ServiceMap.setByHandle (m : ServiceMap) (h : Nat) (sv : Option BLEService) : ServiceMap :=
  { m with handleMap := (h, sv) :: m.handleMap }

/-- Modelled from the spec: `lookupByHandle`. -/
def ServiceMap.getByHandle (m : ServiceMap) (h : Nat) : Option (Option BLEService) :=
  (m.handleMap.find? (fun p => p.1 == h)).map Prod.snd

/-- The empty registry. -/
def ServiceMap.empty : ServiceMap :=
  { services := [], handleMap := [] }

/-- Observable invocations of the registered `BLEServerCallbacks` object. -/
inductive CbEvent where
  | onConnect
  | onConnectWithParam
  | onDisconnect
deriving Repr, DecidableEq

/-- Non-debug log lines the server emits (warnings and errors). -/
inductive LogMsg where
  | duplicateUuidWarning (uuid : Nat)
  | gattsOpenErr (rc : Nat)
  | rssiReadErr (rc : Nat)
deriving Repr, DecidableEq

/-- The `BLEServer` object state, together with observation fields for the
calls it makes into external collaborators. -/
structure ServerState where
  m_appId : Nat
  m_gatts_if : Nat
  m_connectedCount : Nat
  m_connId : Nat
  m_pServerCallbacks : Bool
  m_client_addr : List Nat
  m_connectedServersMap : List (Nat × conn_status_t)
  m_serviceMap : ServiceMap
  m_semaphoreRegisterAppEvt : Semaphore
  m_semaphoreCreateEvt : Semaphore
  m_semaphoreOpenEvt : Semaphore
  m_semaphoreRssiCmplEvt : Semaphore
  nextServiceId : Nat
  warningLog : List LogMsg
  errorLog : List LogMsg
  callbackLog : List CbEvent
  advertisingRestarts : Nat
  openRequests : List (List Nat)
  rssiRequests : List (List Nat)
deriving Repr, DecidableEq

/-- The `BLEServer()` constructor. -/
def initServer : ServerState :=
  { m_appId := ESP_GATT_IF_NONE
    m_gatts_if := ESP_GATT_IF_NONE
    m_connectedCount := 0
    m_connId := ESP_GATT_IF_NONE
    m_pServerCallbacks := false
    m_client_addr := [0, 0, 0, 0, 0, 0]
    m_connectedServersMap := []
    m_serviceMap := ServiceMap.empty
    m_semaphoreRegisterAppEvt := Semaphore.init
    m_semaphoreCreateEvt := Semaphore.init
    m_semaphoreOpenEvt := Semaphore.init
    m_semaphoreRssiCmplEvt := Semaphore.init
    nextServiceId := 0
    warningLog := []
    errorLog := []
    callbackLog := []
    advertisingRestarts := 0
    openRequests := []
    rssiRequests := [] }

/-- The GATT server events `handleGATTServerEvent` dispatches on, carrying
the parameter fields the handler actually reads. -/
inductive GattsEvent where
  | ADD_CHAR_EVT
  | MTU_EVT (conn_id : Nat) (mtu : Nat)
  | CONNECT_EVT (conn_id : Nat) (remote_bda : List Nat)
  | CREATE_EVT (uuid : Nat) (inst_id : Nat) (service_handle : Nat)
  | DISCONNECT_EVT (conn_id : Nat)
  | READ_EVT
  | REG_EVT
  | WRITE_EVT
  | OPEN_EVT (status : Nat)
  | otherEvent
deriving Repr, DecidableEq

/-- GAP events `handleGAPEvent` dispatches on. -/
inductive GapEvent where
  | READ_RSSI_COMPLETE_EVT (status : Nat) (rssi : Int)
  | otherEvent
deriving Repr, DecidableEq

/-- `BLEServer::addPeerDevice((void*) this, false, conn_id)`: insert a
fresh `conn_status_t` with `connected = true` and `mtu = 23`. -/
def BLEServer.addPeerDevice (s : ServerState) (conn_id : Nat) : ServerState :=
  let status : conn_status_t := { peer_device := 0, connected := true, mtu := 23 }
  { s with m_connectedServersMap := MapInsertNew s.m_connectedServersMap conn_id status }

/-- `BLEServer::removePeerDevice(conn_id, false)`: erase the entry. -/
def BLEServer.removePeerDevice (s : ServerState) (conn_id : Nat) : ServerState :=
  { s with m_connectedServersMap := MapErase s.m_connectedServersMap conn_id }

/-- `BLEServer::updatePeerMTU(conn_id, mtu)`: when an entry exists, set its
`mtu` field (the `std::swap` of the mapped value with itself is a no-op);
otherwise do nothing. -/
def BLEServer.updatePeerMTU (s : ServerState) (conn_id : Nat) (mtu : Nat) : ServerState :=
  match MapFind s.m_connectedServersMap conn_id with
  | none => s
  | some _ =>
    { s with m_connectedServersMap :=
        MapAdjust s.m_connectedServersMap conn_id (fun v => { v with mtu := mtu }) }

/-- `BLEServer::getPeerMTU(conn_id)` reads
`m_connectedServersMap.find(conn_id)->second.mtu`; on an absent key the
C++ dereferences the end iterator (undefined behaviour), so the total
embedding returns an `Option` that is `some` exactly when the entry
exists. -/
def BLEServer.getPeerMTU (s : ServerState) (conn_id : Nat) : Option Nat :=
  (MapFind s.m_connectedServersMap conn_id).map conn_status_t.mtu

/-- `BLEServer::getConnectedCount()`. -/
def BLEServer.getConnectedCount (s : ServerState) : Nat :=
  s.m_connectedCount

/-- `BLEServer::getPeerAddress()`. -/
def BLEServer.getPeerAddress (s : ServerState) : List Nat :=
  s.m_client_addr

/-- `BLEServer::handleGATTServerEvent`: the server-level effects of each
event branch, in source order inside each branch.  The trailing forward
of every event to `m_serviceMap.handleGATTServerEvent` goes to the
excluded service collaborator and does not touch server state. -/
def BLEServer.handleGATTServerEvent (s : ServerState) (ev : GattsEvent) (gatts_if : Nat) :
    ServerState :=
  match ev with
  | .ADD_CHAR_EVT => s
  | .MTU_EVT conn_id mtu => BLEServer.updatePeerMTU s conn_id mtu
  | .CONNECT_EVT conn_id remote_bda =>
    let s1 := { s with m_connId := conn_id }
    let s2 := BLEServer.addPeerDevice s1 conn_id
    let s3 := { s2 with m_client_addr := remote_bda.take 6 }
    let s4 :=
      if s3.m_pServerCallbacks then
        { s3 with callbackLog :=
            CbEvent.onConnectWithParam :: CbEvent.onConnect :: s3.callbackLog }
      else s3
    { s4 with m_connectedCount := (s4.m_connectedCount + 1) % 2 ^ 32 }
  | .CREATE_EVT uuid inst_id service_handle =>
    let pService := ServiceMap.getByUUIDInst s.m_serviceMap uuid inst_id
    let s1 := { s with m_serviceMap :=
        ServiceMap.setByHandle s.m_serviceMap service_handle pService }
    { s1 with m_semaphoreCreateEvt := s1.m_semaphoreCreateEvt.giveUnit }
  | .DISCONNECT_EVT conn_id =>
    let s1 := { s with m_connectedCount := (s.m_connectedCount + (2 ^ 32 - 1)) % 2 ^ 32 }
    let s2 :=
      if s1.m_pServerCallbacks then
        { s1 with callbackLog := CbEvent.onDisconnect :: s1.callbackLog }
      else s1
    let s3 := { s2 with advertisingRestarts := s2.advertisingRestarts + 1 }
    BLEServer.removePeerDevice s3 conn_id
  | .READ_EVT => s
  | .REG_EVT =>
    let s1 := { s with m_gatts_if := gatts_if }
    { s1 with m_semaphoreRegisterAppEvt := s1.m_semaphoreRegisterAppEvt.giveUnit }
  | .WRITE_EVT => s
  | .OPEN_EVT status =>
    { s with m_semaphoreOpenEvt := Semaphore.give status }
  | .otherEvent => s

/-- `BLEServer::handleGAPEvent`: on `ESP_GAP_BLE_READ_RSSI_COMPLETE_EVT`
give the RSSI (an `int8_t` cast to `uint32_t`) to the RSSI rendezvous. -/
def BLEServer.handleGAPEvent (s : ServerState) (ev : GapEvent) : ServerState :=
  match ev with
  | .READ_RSSI_COMPLETE_EVT _ rssi =>
    { s with m_semaphoreRssiCmplEvt := Semaphore.give (toUInt32bits rssi) }
  | .otherEvent => s

/-- `BLEServer::connect(address)`: take the open rendezvous, issue
`esp_ble_gatts_open` (recorded in `openRequests`; `errRc` is its
synchronous return code).  On rejection, log the error and return false
with the rendezvous still taken.  Otherwise the controller later delivers
`ESP_GATTS_OPEN_EVT` carrying `openStatus`, routed through the real
dispatcher; `wait` then reads the stored status and the call reports
success exactly when it equals `ESP_GATT_OK`. -/
def BLEServer.connect (s : ServerState) (address : List Nat) (errRc : Nat)
    (openStatus : Nat) : Bool × ServerState :=
  let s1 := { s with m_semaphoreOpenEvt := s.m_semaphoreOpenEvt.take }
  let s2 := { s1 with openRequests := address :: s1.openRequests }
  if errRc ≠ ESP_OK then
    (false, { s2 with errorLog := LogMsg.gattsOpenErr errRc :: s2.errorLog })
  else
    let s3 := BLEServer.handleGATTServerEvent s2 (GattsEvent.OPEN_EVT openStatus) s2.m_gatts_if
    (decide (s3.m_semaphoreOpenEvt.value = ESP_GATT_OK), s3)

/-- `BLEServer::getRssi()`: when the connected count differs from one,
return the sentinel 0 at once (no rendezvous take, no controller call).
Otherwise take the RSSI rendezvous, issue `esp_ble_gap_read_rssi` against
`getPeerAddress()` (recorded in `rssiRequests`; `rc` is its synchronous
return code).  On rejection, log the error and return 0 with the
rendezvous still taken.  Otherwise the controller later delivers
`ESP_GAP_BLE_READ_RSSI_COMPLETE_EVT` with `evStatus`/`evRssi`, routed
through the real dispatcher; `wait` reads the stored `uint32_t` back into
an `int`. -/
def BLEServer.getRssi (s : ServerState) (rc : Nat) (evStatus : Nat) (evRssi : Int) :
    Int × ServerState :=
  if s.m_connectedCount ≠ 1 then (0, s)
  else
    let s1 := { s with m_semaphoreRssiCmplEvt := s.m_semaphoreRssiCmplEvt.take }
    let s2 := { s1 with rssiRequests := BLEServer.getPeerAddress s1 :: s1.rssiRequests }
    if rc ≠ ESP_OK then
      (0, { s2 with errorLog := LogMsg.rssiReadErr rc :: s2.errorLog })
    else
      let s3 := BLEServer.handleGAPEvent s2 (GapEvent.READ_RSSI_COMPLETE_EVT evStatus evRssi)
      (toInt32 s3.m_semaphoreRssiCmplEvt.value, s3)

/-- `BLEServer::createService(uuid, numHandles, inst_id)`: take the
creation rendezvous; when a service with this UUID already exists, log a
duplicate-UUID warning but proceed; allocate a new `BLEService`, set its
instance id, register it in the registry, and issue the controller-side
creation (`executeCreate`).  The controller later confirms with
`ESP_GATTS_CREATE_EVT` carrying `service_handle`, routed through the real
dispatcher, which releases the rendezvous; the call then returns the new
service. -/
def BLEServer.createService (s : ServerState) (uuid : Nat) (numHandles : Nat)
    (inst_id : Nat) (service_handle : Nat) : BLEService × ServerState :=
  let s1 := { s with m_semaphoreCreateEvt := s.m_semaphoreCreateEvt.take }
  let s2 :=
    if (ServiceMap.getByUUID s1.m_serviceMap uuid).isSome then
      { s1 with warningLog := LogMsg.duplicateUuidWarning uuid :: s1.warningLog }
    else s1
  let pService : BLEService :=
    { uuid := uuid, numHandles := numHandles, m_instId := inst_id, objId := s2.nextServiceId }
  let s3 := { s2 with
    nextServiceId := s2.nextServiceId + 1
    m_serviceMap := ServiceMap.setByUUID s2.m_serviceMap pService }
  let s4 := BLEServer.handleGATTServerEvent s3
      (GattsEvent.CREATE_EVT uuid inst_id service_handle) s3.m_gatts_if
  (pService, s4)

/-- Does this event insert a connection-table entry for key `k`
(only `ESP_GATTS_CONNECT_EVT` for that conn id does)? -/
def GattsEvent.connectsId : GattsEvent → Nat → Bool
  | .CONNECT_EVT conn_id _, k => conn_id == k
  | _, _ => false

/-- The `conn_status_t` value `addPeerDevice` always inserts. -/
def status23 : conn_status_t := { peer_device := 0, connected := true, mtu := 23 }

/-- A server with exactly one open connection (concrete test state). -/
def oneConnServer : ServerState :=
  { initServer with m_connectedCount := 1, m_client_addr := [1, 2, 3, 4, 5, 6] }

/-- A server whose connection table holds entries for conn ids 7 and 8
(concrete test state). -/
def twoEntryServer : ServerState :=
  { initServer with m_connectedServersMap :=
      [(7, status23), (8, { peer_device := 0, connected := true, mtu := 50 })] }

/-- A service already registered under UUID 24 (concrete test state). -/
def svc24 : BLEService := { uuid := 24, numHandles := 10, m_instId := 0, objId := 99 }

/-- A server whose registry already holds `svc24` (concrete test state). -/
def dupServer : ServerState :=
  { initServer with
      nextServiceId := 100
      m_serviceMap := { services := [svc24], handleMap := [] } }

theorem MapFind_erase_other (m : List (Nat × conn_status_t)) (k k' : Nat)
    (h : k' ≠ k) : MapFind (MapErase m k) k' = MapFind m k' := by
  induction m with
  | nil => rfl
  | cons p rest ih =>
    by_cases hp : p.1 = k
    · have hkk : ¬ k = k' := fun hc => h hc.symm
      simp [MapErase, MapFind, hp, hkk, ih]
    · by_cases hp' : p.1 = k'
      · simp [MapErase, MapFind, hp, hp', h]
      · simp [MapErase, MapFind, hp, hp', ih]

theorem MapFind_erase_self (m : List (Nat × conn_status_t)) (k : Nat) :
    MapFind (MapErase m k) k = none := by
  induction m with
  | nil => rfl
  | cons p rest ih =>
    by_cases hp : p.1 = k
    · simp [MapErase, hp, ih]
    · simp [MapErase, MapFind, hp, ih]

theorem MapErase_of_find_none (m : List (Nat × conn_status_t)) (k : Nat)
    (h : MapFind m k = none) : MapErase m k = m := by
  induction m with
  | nil => rfl
  | cons p rest ih =>
    simp only [MapFind] at h
    by_cases hp : p.1 = k
    · simp [hp] at h
    · rw [if_neg hp] at h
      simp [MapErase, hp, ih h]

theorem MapFind_insertNew_self (m : List (Nat × conn_status_t)) (k : Nat)
    (v : conn_status_t) (h : MapFind m k = none) :
    MapFind (MapInsertNew m k v) k = some v := by
  simp [MapInsertNew, h, MapFind]

theorem MapFind_insertNew_other (m : List (Nat × conn_status_t)) (k k' : Nat)
    (v : conn_status_t) (h : k' ≠ k) :
    MapFind (MapInsertNew m k v) k' = MapFind m k' := by
  unfold MapInsertNew
  by_cases hs : (MapFind m k).isSome
  · simp [hs]
  · have hkk : ¬ k = k' := fun hc => h hc.symm
    simp [hs, MapFind, hkk]

theorem MapFind_adjust_self (m : List (Nat × conn_status_t)) (k : Nat)
    (f : conn_status_t → conn_status_t) :
    MapFind (MapAdjust m k f) k = (MapFind m k).map f := by
  induction m with
  | nil => rfl
  | cons p rest ih =>
    by_cases hp : p.1 = k
    · simp [MapAdjust, MapFind, hp]
    · simp [MapAdjust, MapFind, hp, ih]

theorem MapFind_adjust_other (m : List (Nat × conn_status_t)) (k k' : Nat)
    (f : conn_status_t → conn_status_t) (h : k' ≠ k) :
    MapFind (MapAdjust m k f) k' = MapFind m k' := by
  induction m with
  | nil => rfl
  | cons p rest ih =>
    by_cases hp : p.1 = k
    · have hkk : ¬ k = k' := fun hc => h hc.symm
      simp [MapAdjust, MapFind, hp, hkk, ih]
    · by_cases hp' : p.1 = k'
      · simp [MapAdjust, MapFind, hp, hp', h]
      · simp [MapAdjust, MapFind, hp, hp', ih]

theorem handle_disconnect_map (s : ServerState) (cid gif : Nat) :
    (BLEServer.handleGATTServerEvent s (GattsEvent.DISCONNECT_EVT cid) gif).m_connectedServersMap
      = MapErase s.m_connectedServersMap cid := by
  simp only [BLEServer.handleGATTServerEvent, BLEServer.removePeerDevice]
  split <;> rfl

theorem handle_connect_map (s : ServerState) (cid gif : Nat) (a : List Nat) :
    (BLEServer.handleGATTServerEvent s (GattsEvent.CONNECT_EVT cid a) gif).m_connectedServersMap
      = MapInsertNew s.m_connectedServersMap cid status23 := by
  simp only [BLEServer.handleGATTServerEvent, BLEServer.addPeerDevice, status23]
  split <;> rfl

/-- Claim C9: the `ESP_GATTS_DISCONNECT_EVT` handler decrements the 32-bit
open-connection counter unconditionally and independently of whether the
conn id has a table entry; from counter 0 it wraps mod 2^32 to
4294967295, which `getConnectedCount` then reports. -/
theorem claim_C9_disconnect_counter_wraps (s : ServerState) (cid gif : Nat) :
    BLEServer.getConnectedCount
        (BLEServer.handleGATTServerEvent s (GattsEvent.DISCONNECT_EVT cid) gif)
      = (s.m_connectedCount + (2 ^ 32 - 1)) % 2 ^ 32
    ∧ (s.m_connectedCount = 0 →
        BLEServer.getConnectedCount
            (BLEServer.handleGATTServerEvent s (GattsEvent.DISCONNECT_EVT cid) gif)
          = 4294967295) := by
  constructor
  · simp only [BLEServer.handleGATTServerEvent, BLEServer.removePeerDevice,
      BLEServer.getConnectedCount]
    split <;> rfl
  · intro h
    simp only [BLEServer.handleGATTServerEvent, BLEServer.removePeerDevice,
      BLEServer.getConnectedCount, h]
    split <;> rfl

/-- Claim C9 witness: a disconnect event on the freshly constructed server
(zero connections) makes `getConnectedCount` report 4294967295. -/
theorem claim_C9_disconnect_counter_wraps_witness :
    BLEServer.getConnectedCount
        (BLEServer.handleGATTServerEvent initServer (GattsEvent.DISCONNECT_EVT 7) 3)
      = (initServer.m_connectedCount + (2 ^ 32 - 1)) % 2 ^ 32
    ∧ (initServer.m_connectedCount = 0 →
        BLEServer.getConnectedCount
            (BLEServer.handleGATTServerEvent initServer (GattsEvent.DISCONNECT_EVT 7) 3)
          = 4294967295) :=
  claim_C9_disconnect_counter_wraps initServer 7 3

/-- Claim C10: `getPeerMTU(conn_id)` returns the mtu field of the entry
when one exists; in the total embedding the result is an `Option` that is
`some` exactly when the entry exists (the C++ dereferences the end
iterator otherwise). -/
theorem claim_C10_getPeerMTU_requires_entry (s : ServerState) (cid : Nat)
    (v : conn_status_t) (h : MapFind s.m_connectedServersMap cid = some v) :
    BLEServer.getPeerMTU s cid = some v.mtu
    ∧ ((BLEServer.getPeerMTU s cid).isSome
        ↔ (MapFind s.m_connectedServersMap cid).isSome) := by
  constructor
  · simp [BLEServer.getPeerMTU, h]
  · simp [BLEServer.getPeerMTU]

/-- Claim C10 witness: instantiated at a table holding conn id 7 with
mtu 23. -/
theorem claim_C10_getPeerMTU_requires_entry_witness :
    MapFind twoEntryServer.m_connectedServersMap 7 = some status23
    ∧ (BLEServer.getPeerMTU twoEntryServer 7 = some status23.mtu
      ∧ ((BLEServer.getPeerMTU twoEntryServer 7).isSome
          ↔ (MapFind twoEntryServer.m_connectedServersMap 7).isSome)) :=
  ⟨by decide, claim_C10_getPeerMTU_requires_entry twoEntryServer 7 status23 (by decide)⟩

/-- Claim C6: `updatePeerMTU(conn_id, mtu)` only changes the mtu field of
the entry for conn id when present (no other entry, no other server
field), and is a complete no-op when the conn id has no entry. -/
theorem claim_C6_updatePeerMTU_frame (s : ServerState) (cid mtu k : Nat)
    (v : conn_status_t) (hk : k ≠ cid) :
    (MapFind s.m_connectedServersMap cid = none → BLEServer.updatePeerMTU s cid mtu = s)
    ∧ (BLEServer.updatePeerMTU s cid mtu
        = { s with m_connectedServersMap :=
              (BLEServer.updatePeerMTU s cid mtu).m_connectedServersMap })
    ∧ (MapFind s.m_connectedServersMap cid = some v →
        MapFind (BLEServer.updatePeerMTU s cid mtu).m_connectedServersMap cid
          = some ({ v with mtu := mtu })
        ∧ MapFind (BLEServer.updatePeerMTU s cid mtu).m_connectedServersMap k
          = MapFind s.m_connectedServersMap k) := by
  rcases hfind : MapFind s.m_connectedServersMap cid with _ | w
  · refine ⟨fun _ => ?_, ?_, fun hv => ?_⟩
    · simp [BLEServer.updatePeerMTU, hfind]
    · simp [BLEServer.updatePeerMTU, hfind]
    · cases hv
  · refine ⟨fun hn => ?_, ?_, fun hv => ?_⟩
    · cases hn
    · simp [BLEServer.updatePeerMTU, hfind]
    · have hwv : w = v := by injection hv
      subst hwv
      constructor
      · simp only [BLEServer.updatePeerMTU, hfind]
        rw [MapFind_adjust_self, hfind]
        rfl
      · simp only [BLEServer.updatePeerMTU, hfind]
        exact MapFind_adjust_other _ _ _ _ hk

/-- Claim C6 witness: instantiated at a table holding conn ids 7 and 8,
updating the mtu of conn id 7 to 200. -/
theorem claim_C6_updatePeerMTU_frame_witness :
    (8 : Nat) ≠ 7
    ∧ ((MapFind twoEntryServer.m_connectedServersMap 7 = none →
          BLEServer.updatePeerMTU twoEntryServer 7 200 = twoEntryServer)
      ∧ (BLEServer.updatePeerMTU twoEntryServer 7 200
          = { twoEntryServer with m_connectedServersMap :=
                (BLEServer.updatePeerMTU twoEntryServer 7 200).m_connectedServersMap })
      ∧ (MapFind twoEntryServer.m_connectedServersMap 7 = some status23 →
          MapFind (BLEServer.updatePeerMTU twoEntryServer 7 200).m_connectedServersMap 7
            = some ({ status23 with mtu := 200 })
          ∧ MapFind (BLEServer.updatePeerMTU twoEntryServer 7 200).m_connectedServersMap 8
            = MapFind twoEntryServer.m_connectedServersMap 8)) :=
  ⟨by decide, claim_C6_updatePeerMTU_frame twoEntryServer 7 200 8 status23 (by decide)⟩

/-- Claim C4: a disconnect event removes the conn id entry from the
connection table; a disconnect for an absent conn id leaves the table
unchanged; absence persists across any later event that is not a connect
event reusing that conn id; and a connect event reusing the conn id
inserts a fresh default entry. -/
theorem claim_C4_disconnect_removes_entry (s : ServerState) (cid : Nat) (a : List Nat)
    (gif gif2 : Nat) (ev : GattsEvent) (hev : ev.connectsId cid = false) :
    MapFind (BLEServer.handleGATTServerEvent s
        (GattsEvent.DISCONNECT_EVT cid) gif).m_connectedServersMap cid = none
    ∧ (MapFind s.m_connectedServersMap cid = none →
        (BLEServer.handleGATTServerEvent s
            (GattsEvent.DISCONNECT_EVT cid) gif).m_connectedServersMap
          = s.m_connectedServersMap)
    ∧ (MapFind s.m_connectedServersMap cid = none →
        MapFind (BLEServer.handleGATTServerEvent s ev gif2).m_connectedServersMap cid = none)
    ∧ MapFind (BLEServer.handleGATTServerEvent
          (BLEServer.handleGATTServerEvent s (GattsEvent.DISCONNECT_EVT cid) gif)
          (GattsEvent.CONNECT_EVT cid a) gif2).m_connectedServersMap cid
        = some status23 := by
  refine ⟨?_, fun habs => ?_, fun habs => ?_, ?_⟩
  · rw [handle_disconnect_map]
    exact MapFind_erase_self _ _
  · rw [handle_disconnect_map]
    exact MapErase_of_find_none _ _ habs
  · cases ev with
    | ADD_CHAR_EVT => exact habs
    | MTU_EVT conn_id mtu =>
      simp only [BLEServer.handleGATTServerEvent]
      rcases hf : MapFind s.m_connectedServersMap conn_id with _ | w
      · simp [BLEServer.updatePeerMTU, hf, habs]
      · by_cases hc : conn_id = cid
        · subst hc
          rw [habs] at hf
          cases hf
        · simp only [BLEServer.updatePeerMTU, hf]
          rw [MapFind_adjust_other _ _ _ _ (fun hx => hc hx.symm)]
          exact habs
    | CONNECT_EVT conn_id b =>
      have hne : cid ≠ conn_id := by
        intro hx
        subst hx
        simp [GattsEvent.connectsId] at hev
      rw [handle_connect_map]
      rw [MapFind_insertNew_other _ _ _ _ hne]
      exact habs
    | CREATE_EVT u i h => exact habs
    | DISCONNECT_EVT conn_id =>
      rw [handle_disconnect_map]
      by_cases hc : conn_id = cid
      · subst hc
        exact MapFind_erase_self _ _
      · rw [MapFind_erase_other _ _ _ (fun hx => hc hx.symm)]
        exact habs
    | READ_EVT => exact habs
    | REG_EVT => exact habs
    | WRITE_EVT => exact habs
    | OPEN_EVT st => exact habs
    | otherEvent => exact habs
  · rw [handle_connect_map]
    apply MapFind_insertNew_self
    rw [handle_disconnect_map]
    exact MapFind_erase_self _ _

/-- Claim C4 witness: instantiated at a table holding conn ids 7 and 8,
disconnecting 7 and reconnecting it, with an interposed MTU event for a
different conn id as the non-connect event. -/
theorem claim_C4_disconnect_removes_entry_witness :
    (GattsEvent.MTU_EVT 9 100).connectsId 7 = false
    ∧ (MapFind (BLEServer.handleGATTServerEvent twoEntryServer
          (GattsEvent.DISCONNECT_EVT 7) 3).m_connectedServersMap 7 = none
      ∧ (MapFind twoEntryServer.m_connectedServersMap 7 = none →
          (BLEServer.handleGATTServerEvent twoEntryServer
              (GattsEvent.DISCONNECT_EVT 7) 3).m_connectedServersMap
            = twoEntryServer.m_connectedServersMap)
      ∧ (MapFind twoEntryServer.m_connectedServersMap 7 = none →
          MapFind (BLEServer.handleGATTServerEvent twoEntryServer
              (GattsEvent.MTU_EVT 9 100) 3).m_connectedServersMap 7 = none)
      ∧ MapFind (BLEServer.handleGATTServerEvent
            (BLEServer.handleGATTServerEvent twoEntryServer (GattsEvent.DISCONNECT_EVT 7) 3)
            (GattsEvent.CONNECT_EVT 7 [1, 2, 3, 4, 5, 6]) 3).m_connectedServersMap 7
          = some status23) :=
  ⟨by decide, claim_C4_disconnect_removes_entry twoEntryServer 7 [1, 2, 3, 4, 5, 6] 3 3
      (GattsEvent.MTU_EVT 9 100) (by decide)⟩

/-- Claim C5: a connect event for a conn id with no existing entry inserts
a table entry with mtu 23 (the protocol minimum) and connected true,
copies the 6-byte peer address into the server, invokes the application
callbacks when a callback object is registered, and increments the
open-connection counter by exactly one. -/
theorem claim_C5_connect_event_effects (s : ServerState) (cid : Nat) (a : List Nat)
    (gif : Nat) (habs : MapFind s.m_connectedServersMap cid = none)
    (hlen : a.length = 6) (hcount : s.m_connectedCount + 1 < 2 ^ 32) :
    MapFind (BLEServer.handleGATTServerEvent s
        (GattsEvent.CONNECT_EVT cid a) gif).m_connectedServersMap cid = some status23
    ∧ (BLEServer.handleGATTServerEvent s
        (GattsEvent.CONNECT_EVT cid a) gif).m_client_addr = a
    ∧ (s.m_pServerCallbacks = true →
        (BLEServer.handleGATTServerEvent s (GattsEvent.CONNECT_EVT cid a) gif).callbackLog
          = CbEvent.onConnectWithParam :: CbEvent.onConnect :: s.callbackLog)
    ∧ (BLEServer.handleGATTServerEvent s
        (GattsEvent.CONNECT_EVT cid a) gif).m_connectedCount
      = s.m_connectedCount + 1 := by
  have hta : a.take 6 = a := by
    rw [← hlen]
    exact List.take_length a
  refine ⟨?_, ?_, fun hcb => ?_, ?_⟩
  · rw [handle_connect_map]
    exact MapFind_insertNew_self _ _ _ habs
  · simp only [BLEServer.handleGATTServerEvent, BLEServer.addPeerDevice]
    split <;> simp [hta]
  · simp [BLEServer.handleGATTServerEvent, BLEServer.addPeerDevice, hcb]
  · simp only [BLEServer.handleGATTServerEvent, BLEServer.addPeerDevice]
    split <;> simp <;> omega

/-- Claim C5 witness: a peer with address AA BB CC DD EE FF (170..255)
connects with conn id 7 to a fresh server that has a callback object
registered. -/
theorem claim_C5_connect_event_effects_witness :
    (MapFind ({ initServer with m_pServerCallbacks := true
        } : ServerState).m_connectedServersMap 7 = none
      ∧ ([170, 187, 204, 221, 238, 255] : List Nat).length = 6
      ∧ ({ initServer with m_pServerCallbacks := true
          } : ServerState).m_connectedCount + 1 < 2 ^ 32)
    ∧ (MapFind (BLEServer.handleGATTServerEvent
          ({ initServer with m_pServerCallbacks := true })
          (GattsEvent.CONNECT_EVT 7 [170, 187, 204, 221, 238, 255]) 3).m_connectedServersMap 7
        = some status23
      ∧ (BLEServer.handleGATTServerEvent ({ initServer with m_pServerCallbacks := true })
          (GattsEvent.CONNECT_EVT 7 [170, 187, 204, 221, 238, 255]) 3).m_client_addr
        = [170, 187, 204, 221, 238, 255]
      ∧ (({ initServer with m_pServerCallbacks := true } : ServerState).m_pServerCallbacks = true →
          (BLEServer.handleGATTServerEvent ({ initServer with m_pServerCallbacks := true })
              (GattsEvent.CONNECT_EVT 7 [170, 187, 204, 221, 238, 255]) 3).callbackLog
            = CbEvent.onConnectWithParam :: CbEvent.onConnect
              :: ({ initServer with m_pServerCallbacks := true } : ServerState).callbackLog)
      ∧ (BLEServer.handleGATTServerEvent ({ initServer with m_pServerCallbacks := true })
          (GattsEvent.CONNECT_EVT 7 [170, 187, 204, 221, 238, 255]) 3).m_connectedCount
        = ({ initServer with m_pServerCallbacks := true } : ServerState).m_connectedCount + 1) :=
  ⟨⟨by decide, by decide, by decide⟩,
    claim_C5_connect_event_effects ({ initServer with m_pServerCallbacks := true }) 7
      [170, 187, 204, 221, 238, 255] 3 (by decide) (by decide) (by decide)⟩

/-- Claim C1: `getRssi` returns the sentinel 0 without any state change
(in particular without issuing a read request or touching the rendezvous)
when the open-connection count differs from one; with exactly one
connection open it returns the measured value `v` carried by the
RSSI-read-complete event. -/
theorem claim_C1_getRssi_result (s : ServerState) (evStatus : Nat) (v : Int)
    (hv1 : -128 ≤ v) (hv2 : v ≤ 127) :
    (s.m_connectedCount ≠ 1 → BLEServer.getRssi s ESP_OK evStatus v = (0, s))
    ∧ (s.m_connectedCount = 1 → (BLEServer.getRssi s ESP_OK evStatus v).1 = v) := by
  constructor
  · intro h
    simp [BLEServer.getRssi, h]
  · intro h
    simp only [BLEServer.getRssi, h, ESP_OK, ne_eq, not_true_eq_false, if_false,
      not_false_eq_true, if_true, BLEServer.handleGAPEvent, Semaphore.give,
      Semaphore.take, toUInt32bits, toInt32, BLEServer.getPeerAddress]
    split <;> omega

/-- Claim C1 witness: with exactly one connection open, an RSSI completion
carrying -60 makes `getRssi` return -60. -/
theorem claim_C1_getRssi_result_witness :
    ((-128 : Int) ≤ -60 ∧ (-60 : Int) ≤ 127)
    ∧ ((oneConnServer.m_connectedCount ≠ 1 →
          BLEServer.getRssi oneConnServer ESP_OK 0 (-60) = (0, oneConnServer))
      ∧ (oneConnServer.m_connectedCount = 1 →
          (BLEServer.getRssi oneConnServer ESP_OK 0 (-60)).1 = -60)) :=
  ⟨⟨by decide, by decide⟩,
    claim_C1_getRssi_result oneConnServer 0 (-60) (by decide) (by decide)⟩

/-- Claim C2 (amended): when the outbound controller call is rejected
synchronously, `connect` and `getRssi` return a failure result
immediately without consuming any completion event; however the
rendezvous was already armed (taken) before the request was issued and is
left taken on this failure path, not empty and un-taken. -/
theorem claim_C2_sync_rejection_leaves_taken (s : ServerState) (a : List Nat)
    (errRc st evStatus : Nat) (v : Int) (h : errRc ≠ ESP_OK)
    (h1 : s.m_connectedCount = 1) :
    ((BLEServer.connect s a errRc st).1 = false
      ∧ (BLEServer.connect s a errRc st).2.m_semaphoreOpenEvt
          = Semaphore.take s.m_semaphoreOpenEvt
      ∧ (BLEServer.connect s a errRc st).2.m_semaphoreOpenEvt.taken = true)
    ∧ ((BLEServer.getRssi s errRc evStatus v).1 = 0
      ∧ (BLEServer.getRssi s errRc evStatus v).2.m_semaphoreRssiCmplEvt
          = Semaphore.take s.m_semaphoreRssiCmplEvt
      ∧ (BLEServer.getRssi s errRc evStatus v).2.m_semaphoreRssiCmplEvt.taken = true) := by
  refine ⟨⟨?_, ?_, ?_⟩, ?_, ?_, ?_⟩ <;>
    simp [BLEServer.connect, BLEServer.getRssi, Semaphore.take, h, h1]

/-- Claim C2 witness: a synchronous rejection code 1 at a one-connection
server. -/
theorem claim_C2_sync_rejection_leaves_taken_witness :
    ((1 : Nat) ≠ ESP_OK ∧ oneConnServer.m_connectedCount = 1)
    ∧ (((BLEServer.connect oneConnServer [1, 2, 3, 4, 5, 6] 1 0).1 = false
      ∧ (BLEServer.connect oneConnServer [1, 2, 3, 4, 5, 6] 1 0).2.m_semaphoreOpenEvt
          = Semaphore.take oneConnServer.m_semaphoreOpenEvt
      ∧ (BLEServer.connect oneConnServer [1, 2, 3, 4, 5, 6] 1 0).2.m_semaphoreOpenEvt.taken
          = true)
    ∧ ((BLEServer.getRssi oneConnServer 1 0 (-60)).1 = 0
      ∧ (BLEServer.getRssi oneConnServer 1 0 (-60)).2.m_semaphoreRssiCmplEvt
          = Semaphore.take oneConnServer.m_semaphoreRssiCmplEvt
      ∧ (BLEServer.getRssi oneConnServer 1 0 (-60)).2.m_semaphoreRssiCmplEvt.taken = true)) :=
  ⟨⟨by decide, by decide⟩,
    claim_C2_sync_rejection_leaves_taken oneConnServer [1, 2, 3, 4, 5, 6] 1 0 0 (-60)
      (by decide) (by decide)⟩

/-- Claim C2 counterexample: on a synchronous rejection (return code 1)
the call does return a failure result, but the rendezvous — empty and
un-taken before the call — has been armed and is left taken, refuting
"without having armed the corresponding rendezvous" and "leaving the
rendezvous still empty and un-taken". -/
theorem claim_C2_counterexample :
    initServer.m_semaphoreOpenEvt.taken = false
    ∧ (BLEServer.connect initServer [1, 2, 3, 4, 5, 6] 1 0).1 = false
    ∧ (BLEServer.connect initServer [1, 2, 3, 4, 5, 6] 1 0).2.m_semaphoreOpenEvt.taken = true
    ∧ oneConnServer.m_semaphoreRssiCmplEvt.taken = false
    ∧ (BLEServer.getRssi oneConnServer 1 0 (-60)).1 = 0
    ∧ (BLEServer.getRssi oneConnServer 1 0 (-60)).2.m_semaphoreRssiCmplEvt.taken = true := by
  decide

/-- Claim C3: with the open request accepted synchronously, `connect`
returns true if and only if the status delivered by `ESP_GATTS_OPEN_EVT`
through the rendezvous equals `ESP_GATT_OK`; every other status makes it
return false. -/
theorem claim_C3_connect_iff_gatt_ok (s : ServerState) (a : List Nat) (st : Nat)
    (h : st < 2 ^ 32) :
    ((BLEServer.connect s a ESP_OK st).1 = true ↔ st = ESP_GATT_OK) := by
  simp [BLEServer.connect, BLEServer.handleGATTServerEvent, Semaphore.give,
    ESP_OK, ESP_GATT_OK]
  omega

/-- Claim C3 witness: completion status 0 (`ESP_GATT_OK`) at a concrete
call makes `connect` return true. -/
theorem claim_C3_connect_iff_gatt_ok_witness :
    (0 : Nat) < 2 ^ 32
    ∧ ((BLEServer.connect initServer [1, 2, 3, 4, 5, 6] ESP_OK 0).1 = true
        ↔ (0 : Nat) = ESP_GATT_OK) :=
  ⟨by decide, claim_C3_connect_iff_gatt_ok initServer [1, 2, 3, 4, 5, 6] 0 (by decide)⟩

/-- Claim C7: `createService` on a UUID that already has an active
registry entry does not fail: it logs a duplicate-UUID warning, still
allocates a fresh service object, registers it in the registry, and
returns it. -/
theorem claim_C7_createService_duplicate_proceeds (s : ServerState)
    (uuid nh inst shandle : Nat)
    (hdup : (ServiceMap.getByUUID s.m_serviceMap uuid).isSome = true) :
    (BLEServer.createService s uuid nh inst shandle).2.warningLog
      = LogMsg.duplicateUuidWarning uuid :: s.warningLog
    ∧ (BLEServer.createService s uuid nh inst shandle).1
      = { uuid := uuid, numHandles := nh, m_instId := inst, objId := s.nextServiceId }
    ∧ (BLEServer.createService s uuid nh inst shandle).1
        ∈ (BLEServer.createService s uuid nh inst shandle).2.m_serviceMap.services := by
  refine ⟨?_, ?_, ?_⟩ <;>
    simp [BLEServer.createService, hdup, BLEServer.handleGATTServerEvent,
      ServiceMap.setByHandle, ServiceMap.setByUUID, Semaphore.giveUnit, Semaphore.take]

/-- Claim C7 witness: creating a second service with UUID 24 on a server
that already holds one. -/
theorem claim_C7_createService_duplicate_proceeds_witness :
    (ServiceMap.getByUUID dupServer.m_serviceMap 24).isSome = true
    ∧ ((BLEServer.createService dupServer 24 10 1 41).2.warningLog
        = LogMsg.duplicateUuidWarning 24 :: dupServer.warningLog
      ∧ (BLEServer.createService dupServer 24 10 1 41).1
        = { uuid := 24, numHandles := 10, m_instId := 1, objId := dupServer.nextServiceId }
      ∧ (BLEServer.createService dupServer 24 10 1 41).1
          ∈ (BLEServer.createService dupServer 24 10 1 41).2.m_serviceMap.services) :=
  ⟨by decide, claim_C7_createService_duplicate_proceeds dupServer 24 10 1 41 (by decide)⟩

/-- Claim C8 evaluation (code bug): a creation-confirmed event whose
(UUID, instance) pair resolves to no registry entry is processed silently
by the dispatcher: no warning or error is reported, the service handle is
bound to no service, and the creation rendezvous is released anyway. -/
theorem claim_C8_create_event_unmatched_silent :
    ServiceMap.getByUUIDInst initServer.m_serviceMap 6157 0 = none
    ∧ (BLEServer.handleGATTServerEvent initServer
        (GattsEvent.CREATE_EVT 6157 0 42) 3).errorLog = initServer.errorLog
    ∧ (BLEServer.handleGATTServerEvent initServer
        (GattsEvent.CREATE_EVT 6157 0 42) 3).warningLog = initServer.warningLog
    ∧ ServiceMap.getByHandle (BLEServer.handleGATTServerEvent initServer
        (GattsEvent.CREATE_EVT 6157 0 42) 3).m_serviceMap 42 = some none
    ∧ (BLEServer.handleGATTServerEvent initServer
        (GattsEvent.CREATE_EVT 6157 0 42) 3).m_semaphoreCreateEvt.taken = false := by
  decide
